import Mathlib

set_option autoImplicit false

/-!
Shallow embedding of the InsideSales-RT front-end components:

* `SendEmailModal.tsx` — template-driven email composer (`replaceVariables`,
  `handleTemplateSelect`, `handleSendEmail`, `fetchTemplates`);
* the settings shell bundled in the same file (`menuSections`, `renderContent`,
  the admin-only menu filter);
* `MeetingModal.tsx` — meeting composer (`createTeamsMeeting`, `handleSubmit`,
  the open-time form seeding, `fetchLeadsAndContacts`).

Strings are modelled as `List Char`.  A JavaScript value of type
`string | undefined | null` is modelled as `Option (List Char)`; the
JavaScript truthiness test on a string (`if (s)`, `s || d`) treats both the
absent value and the empty string as false, which is mirrored by testing
`·.getD [] = []`.
-/

/-- JavaScript `a || b` on an optional string: the empty string and the
absent value are both falsy. -/
def jsOr (a : Option (List Char)) (b : List Char) : List Char :=
  match a with
  | some s => if s = [] then b else s
  | none => b

/-- A toast notification as issued through the `toast(...)` hook:
title, description, and whether `variant: "destructive"` was passed. -/
structure ToastMsg where
  title : List Char
  description : List Char
  destructive : Bool
deriving DecidableEq

/-! ## SendEmailModal: data model -/

/-- The `Contact` interface of `SendEmailModal.tsx`: `contact_name` is
required, the other three fields are optional. -/
structure EmailContact where
  contact_name : List Char
  company_name : Option (List Char) := none
  position : Option (List Char) := none
  email : Option (List Char) := none
deriving DecidableEq

/-- The `EmailTemplate` interface: id, name, subject and body patterns. -/
structure EmailTemplate where
  id : List Char
  name : List Char
  subject : List Char
  body : List Char
deriving DecidableEq

/-- The template/subject/body slice of the component state
(`selectedTemplate`, `subject`, `body`). -/
structure EmailComposeState where
  selectedTemplate : List Char
  subject : List Char
  body : List Char
deriving DecidableEq

/-- The placeholder matched by the regex `/\{\{contact_name\}\}/g`. -/
def pContactName : List Char := "\x7b\x7bcontact_name\x7d\x7d".data

/-- The placeholder matched by the regex `/\{\{company_name\}\}/g`. -/
def pCompanyName : List Char := "\x7b\x7bcompany_name\x7d\x7d".data

/-- The placeholder matched by the regex `/\{\{position\}\}/g`. -/
def pPosition : List Char := "\x7b\x7bposition\x7d\x7d".data

/-- The placeholder matched by the regex `/\{\{email\}\}/g`. -/
def pEmail : List Char := "\x7b\x7bemail\x7d\x7d".data

/-! ## JavaScript `String.prototype.replace` with a string replacement

`text.replace(/lit/g, rep)` scans `text` left to right for non-overlapping
occurrences of the literal `lit`; each occurrence is replaced by the result
of processing `rep` through ECMAScript `GetSubstitution`.  For a regular
expression with no capture groups and no named groups (the case for all
four placeholder regexes) the only active escapes in the replacement are
`$$` (a dollar sign), `$&` (the matched text), a dollar followed by
character 96 (the text before the match) and a dollar followed by
character 39 (the text after the match); every other character — including
a dollar followed by anything else — is copied literally. -/

/-- ECMAScript `GetSubstitution` for a match of the literal `matched`
with `before` the part of the subject string preceding the match and
`after` the part following it (no capture groups). -/
def getSubst (matched before after : List Char) : List Char → List Char
  | [] => []
  | [c] => [c]
  | c :: d :: rest2 =>
    if c = '$' then
      if d = '$' then '$' :: getSubst matched before after rest2
      else if d = '&' then matched ++ getSubst matched before after rest2
      else if d = Char.ofNat 96 then before ++ getSubst matched before after rest2
      else if d = Char.ofNat 39 then after ++ getSubst matched before after rest2
      else c :: getSubst matched before after (d :: rest2)
    else c :: getSubst matched before after (d :: rest2)

/-- One fuel-indexed step of the global replace scan.  `seen` is the part
of the original subject string already scanned (needed by
`GetSubstitution`).  The fuel is an upper bound on the number of scan
steps; `jsReplace` supplies `s.length`, which suffices for a non-empty
pattern because every step consumes at least one character. -/
def jsReplaceFuel (pat rep : List Char) : Nat → List Char → List Char → List Char
  | 0, _, s => s
  | Nat.succ fuel, seen, s =>
    match s with
    | [] => []
    | c :: rest =>
      if pat.isPrefixOf (c :: rest) then
        getSubst pat seen (List.drop pat.length (c :: rest)) rep
          ++ jsReplaceFuel pat rep fuel (seen ++ pat) (List.drop pat.length (c :: rest))
      else
        c :: jsReplaceFuel pat rep fuel (seen ++ [c]) rest

/-- `s.replace(/pat/g, rep)` for a literal pattern `pat`. -/
def jsReplace (pat rep s : List Char) : List Char :=
  jsReplaceFuel pat rep s.length [] s

/-- `replaceVariables` from `SendEmailModal.tsx`: with a null contact the
text is returned unchanged; otherwise the four placeholders are replaced
in sequence (contact_name, company_name, position, email), each by the
corresponding attribute with `|| ''` collapsing an absent value to the
empty string. -/
def replaceVariables (text : List Char) (contactData : Option EmailContact) : List Char :=
  match contactData with
  | none => text
  | some cd =>
    jsReplace pEmail (cd.email.getD [])
      (jsReplace pPosition (cd.position.getD [])
        (jsReplace pCompanyName (cd.company_name.getD [])
          (jsReplace pContactName cd.contact_name text)))

/-- The sentinel template id `"none"`. -/
def sNone : List Char := "none".data

/-- `handleTemplateSelect`: records the selection; the `"none"` sentinel
clears subject and body; a real id is looked up in the loaded template
list and, when found, subject and body are set to the substituted
template fields; an unknown id leaves subject and body unchanged. -/
def handleTemplateSelect (templates : List EmailTemplate) (contact : Option EmailContact)
    (st : EmailComposeState) (templateId : List Char) : EmailComposeState :=
  let st1 := { st with selectedTemplate := templateId }
  if templateId = sNone then
    { st1 with subject := [], body := [] }
  else
    match templates.find? (fun t => t.id == templateId) with
    | some t =>
      { st1 with
          subject := replaceVariables t.subject contact
          body := replaceVariables t.body contact }
    | none => st1

/-- `fetchTemplates`: a successful response stores `data || []`; a thrown
error is logged to the console only — the template list is left unchanged
and no toast is issued. -/
def fetchTemplates (cur : List EmailTemplate)
    (resp : Except (List Char) (Option (List EmailTemplate))) :
    List EmailTemplate × Option ToastMsg :=
  match resp with
  | .ok d => (d.getD [], none)
  | .error _ => (cur, none)

/-! ## SendEmailModal: the send action

`handleSendEmail` checks `contact?.email` for truthiness; if absent or
empty it issues a destructive toast and stops (no window is opened, no
network call is made).  Otherwise it builds a `URLSearchParams`, setting
`subject` and `body` only when non-empty, opens
`mailto:<email>?<params>` in a new browsing context, issues a success
toast and closes the dialog. -/

/-- UTF-8 encoding of one Unicode scalar value, as a list of byte values. -/
def utf8Bytes (c : Char) : List Nat :=
  let n := c.toNat
  if n < 0x80 then [n]
  else if n < 0x800 then [0xC0 + n / 0x40, 0x80 + n % 0x40]
  else if n < 0x10000 then [0xE0 + n / 0x1000, 0x80 + n / 0x40 % 0x40, 0x80 + n % 0x40]
  else [0xF0 + n / 0x40000, 0x80 + n / 0x1000 % 0x40, 0x80 + n / 0x40 % 0x40, 0x80 + n % 0x40]

/-- Upper-case hexadecimal digit. -/
def hexDigit (n : Nat) : Char :=
  if n < 10 then Char.ofNat (48 + n) else Char.ofNat (55 + n)

/-- Bytes serialized verbatim by `application/x-www-form-urlencoded`:
ASCII alphanumerics and `*`, `-`, `.`, `_`. -/
def isUrlSafeByte (b : Nat) : Bool :=
  decide ((0x30 ≤ b ∧ b ≤ 0x39) ∨ (0x41 ≤ b ∧ b ≤ 0x5A) ∨ (0x61 ≤ b ∧ b ≤ 0x7A)
    ∨ b = 0x2A ∨ b = 0x2D ∨ b = 0x2E ∨ b = 0x5F)

/-- `application/x-www-form-urlencoded` serialization of one byte:
safe bytes verbatim, space as `+`, anything else percent-encoded. -/
def encodeByte (b : Nat) : List Char :=
  if isUrlSafeByte b then [Char.ofNat b]
  else if b = 0x20 then ['+']
  else ['%', hexDigit (b / 16), hexDigit (b % 16)]

/-- `URLSearchParams` percent-encoding of a string. -/
def urlencode (s : List Char) : List Char :=
  (s.map (fun c => ((utf8Bytes c).map encodeByte).flatten)).flatten

/-- `URLSearchParams.toString()`: `k=v` pairs joined by `&`, keys and
values percent-encoded, in insertion order. -/
def serializeParams (ps : List (List Char × List Char)) : List Char :=
  List.intercalate ['&'] (ps.map (fun p => urlencode p.1 ++ ['='] ++ urlencode p.2))

/-- Outcome of `handleSendEmail`. -/
inductive SendEmailResult where
  /-- The destructive "No email address" toast was issued; no window was
  opened and the dialog stays open. -/
  | noEmailToast
  /-- `window.open(link, "_blank")` was called with the given link, the
  success toast was issued, and the dialog was closed. -/
  | opened (link : List Char)
deriving DecidableEq

/-- The parameter list built by `handleSendEmail`: `subject` is set first
when non-empty, then `body` when non-empty. -/
def mailtoParams (subject body : List Char) : List (List Char × List Char) :=
  (if subject = [] then [] else [("subject".data, subject)])
    ++ (if body = [] then [] else [("body".data, body)])

/-- `handleSendEmail` from `SendEmailModal.tsx`. -/
def handleSendEmail (contact : EmailContact) (subject body : List Char) : SendEmailResult :=
  if contact.email.getD [] = [] then
    .noEmailToast
  else
    .opened ("mailto:".data ++ contact.email.getD [] ++ ['?']
      ++ serializeParams (mailtoParams subject body))

/-! ## The settings shell (`Settings` component) -/

/-- A `MenuItem`: id, label, and the optional `adminOnly` flag
(icons are presentational and omitted). -/
structure MenuItem where
  id : List Char
  label : List Char
  adminOnly : Bool := false
deriving DecidableEq

/-- A titled menu section. -/
structure MenuSection where
  title : List Char
  items : List MenuItem
deriving DecidableEq

/-- The static `menuSections` array. -/
def menuSections : List MenuSection :=
  [ { title := "Personal Settings".data
      items :=
        [ { id := "profile".data, label := "Profile Management".data }
        , { id := "password-security".data, label := "Password & Security".data }
        , { id := "notifications".data, label := "Notification Preferences".data }
        , { id := "display".data, label := "Display Preferences".data } ] }
  , { title := "User Management".data
      items :=
        [ { id := "user-directory".data, label := "User Directory".data, adminOnly := true }
        , { id := "role-management".data, label := "Role Management".data, adminOnly := true }
        , { id := "page-access".data, label := "Page Access Control".data, adminOnly := true } ] }
  , { title := "System Config".data
      items :=
        [ { id := "pipeline".data, label := "Pipeline/Stage Management".data, adminOnly := true }
        , { id := "email-templates".data, label := "Email Templates".data, adminOnly := true }
        , { id := "backup".data, label := "Data Import/Export".data, adminOnly := true }
        , { id := "integrations".data, label := "Integration Settings".data, adminOnly := true } ] }
  , { title := "Security".data
      items :=
        [ { id := "audit-logs".data, label := "Audit Logs Viewer".data, adminOnly := true }
        , { id := "session-management".data, label := "Session Management".data } ] } ]

/-- The twelve settings panels that `renderContent` can return
(`user-directory` and `role-management` share the `UserManagement`
panel). -/
inductive SettingsPanel where
  | profileSettings
  | securitySettings
  | notificationSettings
  | displaySettings
  | userManagement
  | pageAccessSettings
  | pipelineSettings
  | emailTemplatesSettings
  | backupRestoreSettings
  | integrationSettings
  | auditLogsSettings
  | sessionManagementSettings
deriving DecidableEq

/-- The `switch (activeTab)` of `renderContent`; the `default` arm
returns the profile panel. -/
def renderContent (activeTab : List Char) : SettingsPanel :=
  if activeTab = "profile".data then .profileSettings
  else if activeTab = "password-security".data then .securitySettings
  else if activeTab = "notifications".data then .notificationSettings
  else if activeTab = "display".data then .displaySettings
  else if activeTab = "user-directory".data then .userManagement
  else if activeTab = "role-management".data then .userManagement
  else if activeTab = "page-access".data then .pageAccessSettings
  else if activeTab = "pipeline".data then .pipelineSettings
  else if activeTab = "email-templates".data then .emailTemplatesSettings
  else if activeTab = "backup".data then .backupRestoreSettings
  else if activeTab = "integrations".data then .integrationSettings
  else if activeTab = "audit-logs".data then .auditLogsSettings
  else if activeTab = "session-management".data then .sessionManagementSettings
  else .profileSettings

/-- `isAdmin` is `userRole === "admin"`. -/
def isAdminFor (userRole : List Char) : Bool :=
  userRole == "admin".data

/-- The sidebar as rendered: each section keeps the items passing
`!item.adminOnly || isAdmin`, and a section whose visible item list is
empty is not rendered at all. -/
def visibleSections (isAdmin : Bool) : List MenuSection :=
  (menuSections.map
      (fun sec => { sec with items := sec.items.filter (fun it => !it.adminOnly || isAdmin) })).filter
    (fun sec => !sec.items.isEmpty)

/-- The thirteen keys the menu can set as `activeTab` (the twelve ids
plus nothing else; `profile` is the initial value of `activeTab`). -/
def settingsKeys : List (List Char) :=
  [ "profile".data, "password-security".data, "notifications".data, "display".data
  , "user-directory".data, "role-management".data, "page-access".data
  , "pipeline".data, "email-templates".data, "backup".data, "integrations".data
  , "audit-logs".data, "session-management".data ]

/-! ## MeetingModal: data model -/

/-- The `Meeting` interface (the opaque `attendees` payload is never read
by the component and is omitted). -/
structure Meeting where
  id : List Char
  subject : List Char
  description : Option (List Char) := none
  start_time : List Char
  end_time : List Char
  join_url : Option (List Char) := none
  lead_id : Option (List Char) := none
  contact_id : Option (List Char) := none
  status : List Char
deriving DecidableEq

/-- The `Lead` interface of `MeetingModal.tsx`. -/
structure Lead where
  id : List Char
  lead_name : List Char
  email : Option (List Char) := none
deriving DecidableEq

/-- The `Contact` interface of `MeetingModal.tsx`. -/
structure MeetingContact where
  id : List Char
  contact_name : List Char
  email : Option (List Char) := none
deriving DecidableEq

/-- The `formData` state object of `MeetingModal.tsx`. -/
structure FormData where
  subject : List Char
  description : List Char
  start_time : List Char
  end_time : List Char
  join_url : List Char
  lead_id : List Char
  contact_id : List Char
  status : List Char
deriving DecidableEq

/-- An `{ email, name }` attendee entry sent to the remote function. -/
structure Attendee where
  email : List Char
  name : List Char
deriving DecidableEq

/-- The body of the `create-teams-meeting` invocation. -/
structure TeamsRequest where
  subject : List Char
  attendees : List Attendee
  startTime : List Char
  endTime : List Char
deriving DecidableEq

/-- What one invocation of `createTeamsMeeting` does before any response
arrives. -/
inductive TeamsAction where
  /-- The destructive "Missing fields" toast was issued and no remote
  call was made. -/
  | missingFields
  /-- Exactly one `supabase.functions.invoke('create-teams-meeting', ...)`
  call was issued, with the given body. -/
  | invoke (req : TeamsRequest)
deriving DecidableEq

/-- `createTeamsMeeting` up to the remote invocation: validates that
subject, start and end are non-empty, then collects the attendee list
from the selected lead and/or contact (each contributing an entry only
when it resolves and has a truthy email) and issues the single call. -/
def createTeamsMeeting (fd : FormData) (leads : List Lead)
    (contacts : List MeetingContact) : TeamsAction :=
  if fd.subject = [] ∨ fd.start_time = [] ∨ fd.end_time = [] then
    .missingFields
  else
    let leadAtt : List Attendee :=
      if fd.lead_id = [] then []
      else
        match leads.find? (fun l => l.id == fd.lead_id) with
        | some l => if l.email.getD [] = [] then [] else [⟨l.email.getD [], l.lead_name⟩]
        | none => []
    let contactAtt : List Attendee :=
      if fd.contact_id = [] then []
      else
        match contacts.find? (fun c => c.id == fd.contact_id) with
        | some c => if c.email.getD [] = [] then [] else [⟨c.email.getD [], c.contact_name⟩]
        | none => []
    .invoke ⟨fd.subject, leadAtt ++ contactAtt, fd.start_time, fd.end_time⟩

/-- The response of the remote function as seen by the component:
either a resolved payload whose `data?.meeting?.joinUrl` is the given
optional string, or a thrown error with an optional `message`. -/
inductive TeamsResponse where
  | ok (joinUrl : Option (List Char))
  | err (message : Option (List Char))
deriving DecidableEq

/-- The success toast of `createTeamsMeeting`. -/
def teamsSuccessToast : ToastMsg :=
  ⟨"Teams Meeting Created".data, "Meeting link has been generated".data, false⟩

/-- How `createTeamsMeeting` handles the response: a resolved payload
with a truthy `joinUrl` overwrites `join_url` and issues the success
toast; a resolved payload without one does nothing; a thrown error
leaves the form unchanged and issues a destructive toast carrying
`error.message || "Failed to create Teams meeting"`. -/
def teamsOnResponse (fd : FormData) (resp : TeamsResponse) : FormData × Option ToastMsg :=
  match resp with
  | .ok j =>
    match j with
    | some url =>
      if url = [] then (fd, none)
      else ({ fd with join_url := url }, some teamsSuccessToast)
    | none => (fd, none)
  | .err m =>
    (fd, some ⟨"Error".data, jsOr m ("Failed to create Teams meeting".data), true⟩)

/-! ## MeetingModal: submission -/

/-- The row written to the `meetings` table. -/
structure MeetingRow where
  subject : List Char
  description : Option (List Char)
  start_time : List Char
  end_time : List Char
  join_url : Option (List Char)
  lead_id : Option (List Char)
  contact_id : Option (List Char)
  status : List Char
  created_by : Option (List Char)
deriving DecidableEq

/-- The `meetingData` object built by `handleSubmit`: every optional
field is normalized by `|| null` (empty string becomes an explicit
null), `created_by` is `user?.id`. -/
def meetingRowOf (fd : FormData) (userId : Option (List Char)) : MeetingRow :=
  { subject := fd.subject
    description := if fd.description = [] then none else some fd.description
    start_time := fd.start_time
    end_time := fd.end_time
    join_url := if fd.join_url = [] then none else some fd.join_url
    lead_id := if fd.lead_id = [] then none else some fd.lead_id
    contact_id := if fd.contact_id = [] then none else some fd.contact_id
    status := fd.status
    created_by := userId }

/-- What one submission of the meeting composer does. -/
inductive SubmitResult where
  /-- The destructive "Missing fields" toast was issued; zero insert or
  update calls were made. -/
  | invalid
  /-- Exactly one `insert` into `meetings` was issued with the given row. -/
  | insert (row : MeetingRow)
  /-- Exactly one `update` of `meetings` keyed by the given id was
  issued with the given row. -/
  | update (id : List Char) (row : MeetingRow)
deriving DecidableEq

/-- `handleSubmit` up to the network call: validates subject, start and
end for truthiness, then takes the update path exactly when the
`meeting` prop was supplied, keying the update by `meeting.id`. -/
def handleSubmit (meeting : Option Meeting) (userId : Option (List Char))
    (fd : FormData) : SubmitResult :=
  if fd.subject = [] ∨ fd.start_time = [] ∨ fd.end_time = [] then
    .invalid
  else
    match meeting with
    | some mt => .update mt.id (meetingRowOf fd userId)
    | none => .insert (meetingRowOf fd userId)

/-- The catch block of `handleSubmit`: the form is left unchanged, a
destructive toast carries `error.message || "Failed to save meeting"`,
and the dialog stays open (the `Bool` component; `onSuccess` and
`onOpenChange(false)` are not reached). -/
def submitOnError (fd : FormData) (message : Option (List Char)) :
    FormData × ToastMsg × Bool :=
  (fd, ⟨"Error".data, jsOr message ("Failed to save meeting".data), true⟩, true)

/-- `fetchLeadsAndContacts`: each of the two responses updates its list
only when its `data` is non-null; a thrown error is logged to the
console only — both lists are left unchanged and no toast is issued in
any case. -/
def fetchLeadsAndContacts (leads : List Lead) (contacts : List MeetingContact)
    (resp : Except (List Char) (Option (List Lead) × Option (List MeetingContact))) :
    List Lead × List MeetingContact × Option ToastMsg :=
  match resp with
  | .ok (lr, cr) => (lr.getD leads, cr.getD contacts, none)
  | .error _ => (leads, contacts, none)

/-! ## MeetingModal: form seeding on open

The effect seeds the form when the dialog opens.  With a `meeting` prop,
every field is copied from the record (`|| ""` for the optionals,
`slice(0, 16)` truncating the ISO timestamps to minute precision,
`|| "scheduled"` for the status).  Without one, a `Date` is advanced to
the top of the next hour via `setHours(getHours() + 1, 0, 0, 0)`, the
end time is that plus 3 600 000 ms, and both are rendered with
`toISOString().slice(0, 16)`.

Dates are modelled as milliseconds since the epoch (`Int`), with the
host timezone a fixed offset `tzOffset` in minutes east of UTC, so that
local time is `utc + tzOffset * 60000` (daylight-saving transitions are
outside the model).  ECMAScript day/hour arithmetic uses floor division
and a nonnegative modulo, which for the positive divisors involved are
exactly `Int`'s `/` and `%`. -/

/-- `setHours(getHours() + 1, 0, 0, 0)` on a `Date` holding `nowUtc`:
compute the local hour of day, and rebuild the time from the local day
start with that hour plus one and zeroed minutes, seconds and
milliseconds.  Returns the new UTC milliseconds. -/
def jsNextHourStart (nowUtc tzOffset : Int) : Int :=
  let localMs := nowUtc + tzOffset * 60000
  let hourOfDay := localMs / 3600000 % 24
  let localDayStart := localMs / 86400000 * 86400000
  localDayStart + (hourOfDay + 1) * 3600000 - tzOffset * 60000

/-- Proleptic Gregorian date (year, month, day) of a day count since
1970-01-01. -/
def civilFromDays (z : Nat) : Nat × Nat × Nat :=
  let z' := z + 719468
  let era := z' / 146097
  let doe := z' % 146097
  let yoe := (doe - doe / 1460 + doe / 36524 - doe / 146096) / 365
  let y := yoe + era * 400
  let doy := doe - (365 * yoe + yoe / 4 - yoe / 100)
  let mp := (5 * doy + 2) / 153
  let d := doy - (153 * mp + 2) / 5 + 1
  let m := if mp < 10 then mp + 3 else mp - 9
  (if m ≤ 2 then y + 1 else y, m, d)

/-- Decimal digits left-padded with zeros to width `w`. -/
def padN (w n : Nat) : List Char :=
  let ds := Nat.toDigits 10 n
  List.replicate (w - ds.length) '0' ++ ds

/-- `toISOString().slice(0, 16)`: the UTC timestamp rendered as
`YYYY-MM-DDTHH:MM` (for timestamps at or after the epoch and with a
four-digit year). -/
def isoSlice16 (msUtc : Int) : List Char :=
  let msN := msUtc.toNat
  let dat := civilFromDays (msN / 86400000)
  let msOfDay := msN % 86400000
  padN 4 dat.1 ++ ['-'] ++ padN 2 dat.2.1 ++ ['-'] ++ padN 2 dat.2.2 ++ ['T']
    ++ padN 2 (msOfDay / 3600000) ++ [':'] ++ padN 2 (msOfDay % 3600000 / 60000)

/-- The open-time `useEffect` body that seeds `formData`: seed from the
`meeting` prop when present, otherwise default the times from the
current clock. -/
def initMeetingForm (meeting : Option Meeting) (nowUtc tzOffset : Int) : FormData :=
  match meeting with
  | some mt =>
    { subject := jsOr (some mt.subject) []
      description := mt.description.getD []
      start_time := if mt.start_time = [] then [] else mt.start_time.take 16
      end_time := if mt.end_time = [] then [] else mt.end_time.take 16
      join_url := mt.join_url.getD []
      lead_id := mt.lead_id.getD []
      contact_id := mt.contact_id.getD []
      status := jsOr (some mt.status) ("scheduled".data) }
  | none =>
    let start := jsNextHourStart nowUtc tzOffset
    { subject := []
      description := []
      start_time := isoSlice16 start
      end_time := isoSlice16 (start + 60 * 60 * 1000)
      join_url := []
      lead_id := []
      contact_id := []
      status := "scheduled".data }

/-! ## Spec-side substitution definitions

Two definitions written from the specification's words, to be compared
with `replaceVariables`:

* `specSubstitute` — simultaneous single-pass substitution: scanning the
  template once, every occurrence of each of the four recognized
  placeholders is replaced by the corresponding contact attribute (empty
  when absent) and every other character — in particular any other
  `\x7b\x7b...\x7d\x7d` token — is copied untouched.
* `seqSubstitute` — sequential plain-text substitution: four global
  replace passes in the order contact_name, company_name, position,
  email, each pass being plain textual replacement (no replacement-string
  escapes). -/

/-- Modelled from the spec: one fuel-indexed step of the simultaneous
single-pass substitution over the template. -/
def specSubstituteFuel (cd : EmailContact) : Nat → List Char → List Char
  | 0, s => s
  | Nat.succ fuel, s =>
    match s with
    | [] => []
    | c :: rest =>
      if pContactName.isPrefixOf (c :: rest) then
        cd.contact_name ++ specSubstituteFuel cd fuel (List.drop pContactName.length (c :: rest))
      else if pCompanyName.isPrefixOf (c :: rest) then
        cd.company_name.getD [] ++ specSubstituteFuel cd fuel (List.drop pCompanyName.length (c :: rest))
      else if pPosition.isPrefixOf (c :: rest) then
        cd.position.getD [] ++ specSubstituteFuel cd fuel (List.drop pPosition.length (c :: rest))
      else if pEmail.isPrefixOf (c :: rest) then
        cd.email.getD [] ++ specSubstituteFuel cd fuel (List.drop pEmail.length (c :: rest))
      else
        c :: specSubstituteFuel cd fuel rest

/-- Modelled from the spec: simultaneous single-pass substitution of the
four placeholders against a contact. -/
def specSubstitute (cd : EmailContact) (text : List Char) : List Char :=
  specSubstituteFuel cd text.length text

/-- Plain global textual replacement (no replacement-string escapes),
fuel-indexed. -/
def plainReplaceFuel (pat rep : List Char) : Nat → List Char → List Char
  | 0, s => s
  | Nat.succ fuel, s =>
    match s with
    | [] => []
    | c :: rest =>
      if pat.isPrefixOf (c :: rest) then
        rep ++ plainReplaceFuel pat rep fuel (List.drop pat.length (c :: rest))
      else
        c :: plainReplaceFuel pat rep fuel rest

/-- Plain global textual replacement of a literal pattern. -/
def plainReplace (pat rep s : List Char) : List Char :=
  plainReplaceFuel pat rep s.length s

/-- Sequential plain-text substitution: the four global replace passes in
source order, each pass plain textual replacement. -/
def seqSubstitute (cd : EmailContact) (text : List Char) : List Char :=
  plainReplace pEmail (cd.email.getD [])
    (plainReplace pPosition (cd.position.getD [])
      (plainReplace pCompanyName (cd.company_name.getD [])
        (plainReplace pContactName cd.contact_name text)))

/-- No attribute value of the contact contains a dollar sign, so no
replacement-string escape can fire. -/
def noDollarContact (cd : EmailContact) : Prop :=
  '$' ∉ cd.contact_name ∧ '$' ∉ cd.company_name.getD []
    ∧ '$' ∉ cd.position.getD [] ∧ '$' ∉ cd.email.getD []

/-! ## Lemmas: a dollar-free replacement string is inert -/

theorem getSubst_noDollar (matched before after : List Char) :
    ∀ rep : List Char, '$' ∉ rep → getSubst matched before after rep = rep := by
  intro rep
  induction rep using getSubst.induct matched before after with
  | case1 => intro _; rfl
  | case2 c => intro _; rfl
  | case3 rest2 _ => intro h; simp at h
  | case4 rest2 _ _ => intro h; simp at h
  | case5 rest2 _ _ _ => intro h; simp at h
  | case6 rest2 _ _ _ _ => intro h; simp at h
  | case7 d rest2 _ _ _ _ _ => intro h; simp at h
  | case8 c d rest2 hc ih =>
    intro h
    have h2 : '$' ∉ d :: rest2 := by
      intro hm; exact h (List.mem_cons_of_mem c hm)
    simp only [getSubst, if_neg hc]
    exact congrArg (c :: ·) (ih h2)

theorem jsReplaceFuel_noDollar (pat rep : List Char) (h : '$' ∉ rep) :
    ∀ (fuel : Nat) (seen s : List Char),
      jsReplaceFuel pat rep fuel seen s = plainReplaceFuel pat rep fuel s := by
  intro fuel
  induction fuel with
  | zero => intro seen s; rfl
  | succ fuel ih =>
    intro seen s
    cases s with
    | nil => rfl
    | cons c rest =>
      simp only [jsReplaceFuel, plainReplaceFuel]
      by_cases hp : pat.isPrefixOf (c :: rest) = true
      · rw [if_pos hp, if_pos hp, getSubst_noDollar _ _ _ _ h, ih]
      · rw [if_neg hp, if_neg hp, ih]

theorem jsReplace_noDollar (pat rep s : List Char) (h : '$' ∉ rep) :
    jsReplace pat rep s = plainReplace pat rep s :=
  jsReplaceFuel_noDollar pat rep h s.length [] s

/-- With a contact whose attribute values are dollar-free, the four
JavaScript replace passes coincide with plain sequential textual
substitution. -/
theorem replaceVariables_noDollar (cd : EmailContact) (h : noDollarContact cd)
    (text : List Char) : replaceVariables text (some cd) = seqSubstitute cd text := by
  obtain ⟨h1, h2, h3, h4⟩ := h
  simp only [replaceVariables, seqSubstitute]
  rw [jsReplace_noDollar _ _ _ h1, jsReplace_noDollar _ _ _ h2,
    jsReplace_noDollar _ _ _ h3, jsReplace_noDollar _ _ _ h4]

/-! ## Claims about template substitution -/

/-- Claim C1, counterexample.  The claim reads `replaceVariables` as a
simultaneous substitution: every occurrence of each of the four
recognized placeholders replaced by the corresponding contact attribute,
any other token untouched.  The code applies four sequential passes with
JavaScript replacement-string escapes, which disagrees with the claim in
two ways at concrete inputs: (i) a contact_name value that is itself the
email placeholder is rewritten again by the later email pass, and (ii) a
contact_name value containing the `$&` escape reproduces the matched
placeholder instead of being inserted verbatim. -/
theorem substitution_not_simultaneous_cex :
    (handleTemplateSelect
        [⟨"t1".data, "T".data, pContactName, pContactName⟩]
        (some ⟨pEmail, none, none, some ("e@x".data)⟩)
        ⟨[], [], []⟩ ("t1".data)).subject = "e@x".data
    ∧ specSubstitute ⟨pEmail, none, none, some ("e@x".data)⟩ pContactName = pEmail
    ∧ "e@x".data ≠ pEmail
    ∧ (handleTemplateSelect
        [⟨"t1".data, "T".data, pContactName, pContactName⟩]
        (some ⟨"$&".data, none, none, none⟩)
        ⟨[], [], []⟩ ("t1".data)).subject = pContactName
    ∧ specSubstitute ⟨"$&".data, none, none, none⟩ pContactName = "$&".data
    ∧ pContactName ≠ "$&".data := by
  refine ⟨rfl, rfl, by decide, rfl, rfl, by decide⟩

/-- Claim C1 (amended).  Selecting a real template sets the selection and
sets subject and body to the result of sequential global substitution of
the four placeholders, in the fixed order contact_name, company_name,
position, email, each pass replacing every occurrence by the
corresponding contact attribute (empty string when absent); for a
contact whose attribute values contain no dollar sign this is plain
textual substitution (`seqSubstitute`), a pure function of the template
and contact.  Placeholder tokens contained in substituted attribute
values are themselves rewritten by later passes, so the result is the
sequential, not the simultaneous, substitution. -/
theorem template_select_sequential_substitution
    (templates : List EmailTemplate) (cd : EmailContact) (st : EmailComposeState)
    (tid : List Char) (tpl : EmailTemplate)
    (hd : noDollarContact cd) (hnone : tid ≠ sNone)
    (hfind : templates.find? (fun t => t.id == tid) = some tpl) :
    (handleTemplateSelect templates (some cd) st tid).subject = seqSubstitute cd tpl.subject
    ∧ (handleTemplateSelect templates (some cd) st tid).body = seqSubstitute cd tpl.body
    ∧ (handleTemplateSelect templates (some cd) st tid).selectedTemplate = tid := by
  simp only [handleTemplateSelect, if_neg hnone, hfind]
  exact ⟨replaceVariables_noDollar cd hd tpl.subject,
    replaceVariables_noDollar cd hd tpl.body, trivial⟩

/-- Example template used by the witness below. -/
def tplW : EmailTemplate :=
  ⟨"t1".data, "T".data, ("Hi \x7b\x7bcontact_name\x7d\x7d".data),
    ("B \x7b\x7bemail\x7d\x7d".data)⟩

/-- Example contact used by the witness below. -/
def cdW : EmailContact :=
  ⟨"Jane".data, some ("Acme".data), none, some ("j@a".data)⟩

theorem template_select_sequential_substitution_witness :
    noDollarContact cdW
    ∧ "t1".data ≠ sNone
    ∧ List.find? (fun t => t.id == "t1".data) [tplW] = some tplW
    ∧ ((handleTemplateSelect [tplW] (some cdW) ⟨[], [], []⟩ ("t1".data)).subject
          = seqSubstitute cdW tplW.subject
      ∧ (handleTemplateSelect [tplW] (some cdW) ⟨[], [], []⟩ ("t1".data)).body
          = seqSubstitute cdW tplW.body
      ∧ (handleTemplateSelect [tplW] (some cdW) ⟨[], [], []⟩ ("t1".data)).selectedTemplate
          = "t1".data) :=
  ⟨⟨by decide, by decide, by decide, by decide⟩, by decide, by decide,
    template_select_sequential_substitution [tplW] cdW ⟨[], [], []⟩ ("t1".data) tplW
      ⟨by decide, by decide, by decide, by decide⟩ (by decide) (by decide)⟩

/-- Claim C10.  The substitution is sequential in the fixed order
contact_name, company_name, position, email: a contact_name value that
itself contains the email placeholder has that inserted occurrence
rewritten by the later email pass (first conjunct, for any dollar-free
email value), whereas an email value containing the contact_name
placeholder is left as that literal token, the contact_name pass having
already run (second conjunct, for any contact_name value). -/
theorem replaceVariables_sequential_order (e n : List Char) (he : '$' ∉ e) :
    replaceVariables pContactName (some ⟨pEmail, none, none, some e⟩) = e
    ∧ replaceVariables pEmail (some ⟨n, none, none, some pContactName⟩) = pContactName := by
  constructor
  · have h1 : replaceVariables pContactName (some ⟨pEmail, none, none, some e⟩)
        = getSubst pEmail [] [] e ++ ([] : List Char) := rfl
    rw [h1, getSubst_noDollar _ _ _ _ he, List.append_nil]
  · rfl

theorem replaceVariables_sequential_order_witness :
    '$' ∉ "x@y".data
    ∧ (replaceVariables pContactName (some ⟨pEmail, none, none, some ("x@y".data)⟩) = "x@y".data
      ∧ replaceVariables pEmail (some ⟨"N".data, none, none, some pContactName⟩) = pContactName) :=
  ⟨by decide, replaceVariables_sequential_order ("x@y".data) ("N".data) (by decide)⟩

/-! ## Claims about the send action and the settings shell -/

/-- Claim C7.  A contact whose email is absent or empty (JavaScript
falsy) makes the send action stop at the blocking "no email address"
toast, with no window opened; a contact with a non-empty email makes it
open `mailto:<address>?<query>` in a new browsing context, where the
query serializes the subject and body parameters in that order with
parameters whose value is empty omitted, notify success and close the
dialog. -/
theorem send_email_requires_address_and_builds_mailto
    (c : EmailContact) (subject body : List Char) :
    ((c.email = none ∨ c.email = some []) →
      handleSendEmail c subject body = .noEmailToast)
    ∧ (∀ e, c.email = some e → e ≠ [] →
        handleSendEmail c subject body
          = .opened ("mailto:".data ++ e ++ ['?']
              ++ serializeParams
                ((if subject = [] then [] else [("subject".data, subject)])
                  ++ (if body = [] then [] else [("body".data, body)])))) := by
  constructor
  · intro h
    have he : c.email.getD [] = [] := by
      rcases h with h | h <;> simp [h]
    simp [handleSendEmail, he]
  · intro e he hne
    have hg : c.email.getD [] = e := by simp [he]
    simp [handleSendEmail, hg, hne, mailtoParams]

theorem send_email_requires_address_and_builds_mailto_witness :
    (((⟨"A".data, none, none, none⟩ : EmailContact).email = none
        ∨ (⟨"A".data, none, none, none⟩ : EmailContact).email = some [])
      → handleSendEmail ⟨"A".data, none, none, none⟩ ("S".data) ("B".data) = .noEmailToast)
    ∧ (∀ e, (⟨"A".data, none, none, some ("a@b.c".data)⟩ : EmailContact).email = some e
        → e ≠ [] →
        handleSendEmail ⟨"A".data, none, none, some ("a@b.c".data)⟩ ("Hi there".data) []
          = .opened ("mailto:".data ++ e ++ ['?']
              ++ serializeParams
                ((if ("Hi there".data : List Char) = [] then []
                    else [("subject".data, "Hi there".data)])
                  ++ (if ([] : List Char) = [] then [] else [("body".data, [])])))) :=
  ⟨(send_email_requires_address_and_builds_mailto ⟨"A".data, none, none, none⟩
      ("S".data) ("B".data)).1,
    (send_email_requires_address_and_builds_mailto ⟨"A".data, none, none, some ("a@b.c".data)⟩
      ("Hi there".data) []).2⟩

/-- Claim C9.  With any non-administrator role the rendered settings
menu contains no admin-only item; the panel is looked up from the active
key by the static `renderContent` mapping, whose default key renders the
profile panel and which falls back to that same panel on any key outside
the thirteen known ones. -/
theorem settings_menu_role_filter_and_fallback
    (role : List Char) (hrole : role ≠ "admin".data)
    (key : List Char) (hkey : key ∉ settingsKeys) :
    (∀ sec ∈ visibleSections (isAdminFor role), ∀ it ∈ sec.items, it.adminOnly = false)
    ∧ renderContent ("profile".data) = .profileSettings
    ∧ renderContent key = .profileSettings := by
  have hadm : isAdminFor role = false := by
    simp [isAdminFor]
    exact hrole
  refine ⟨?_, rfl, ?_⟩
  · rw [hadm]
    decide
  · simp only [settingsKeys, List.mem_cons, List.not_mem_nil, or_false, not_or] at hkey
    obtain ⟨h1, h2, h3, h4, h5, h6, h7, h8, h9, h10, h11, h12, h13⟩ := hkey
    simp only [renderContent, if_neg h1, if_neg h2, if_neg h3, if_neg h4, if_neg h5,
      if_neg h6, if_neg h7, if_neg h8, if_neg h9, if_neg h10, if_neg h11, if_neg h12,
      if_neg h13]

theorem settings_menu_role_filter_and_fallback_witness :
    "member".data ≠ "admin".data
    ∧ "bogus-key".data ∉ settingsKeys
    ∧ ((∀ sec ∈ visibleSections (isAdminFor ("member".data)),
          ∀ it ∈ sec.items, it.adminOnly = false)
      ∧ renderContent ("profile".data) = .profileSettings
      ∧ renderContent ("bogus-key".data) = .profileSettings) :=
  ⟨by decide, by decide,
    settings_menu_role_filter_and_fallback ("member".data) (by decide)
      ("bogus-key".data) (by decide)⟩

/-! ## Claims about the meeting composer -/

/-- The attendee list gathered by `createTeamsMeeting`: the selected
lead entry and/or the selected contact entry, each contributing only
when the reference resolves in the fetched list and has a truthy email. -/
def selectedAttendees (fd : FormData) (leads : List Lead)
    (contacts : List MeetingContact) : List Attendee :=
  (if fd.lead_id = [] then []
   else match leads.find? (fun l => l.id == fd.lead_id) with
     | some l => if l.email.getD [] = [] then []
       else [⟨l.email.getD [], l.lead_name⟩]
     | none => [])
    ++ (if fd.contact_id = [] then []
        else match contacts.find? (fun c => c.id == fd.contact_id) with
          | some c => if c.email.getD [] = [] then []
            else [⟨c.email.getD [], c.contact_name⟩]
          | none => [])

/-- Claim C2.  With subject, start and end all non-empty the
conferencing-link action issues exactly one remote call whose body is
`{subject, attendees, startTime, endTime}` taken from the form, the
attendee list holding exactly the selected lead and/or contact entries
that resolve and have a non-empty email (every listed attendee has a
non-empty email); a successful response bearing a non-empty join URL
overwrites the form's join-link field (and only it) and notifies
success, while a thrown error leaves the whole form unchanged and
surfaces a destructive toast. -/
theorem create_teams_meeting_call_and_response
    (fd : FormData) (leads : List Lead) (contacts : List MeetingContact)
    (h1 : fd.subject ≠ []) (h2 : fd.start_time ≠ []) (h3 : fd.end_time ≠ []) :
    createTeamsMeeting fd leads contacts
      = .invoke ⟨fd.subject, selectedAttendees fd leads contacts,
          fd.start_time, fd.end_time⟩
    ∧ (∀ a ∈ selectedAttendees fd leads contacts, a.email ≠ [])
    ∧ (∀ url : List Char, url ≠ [] →
        teamsOnResponse fd (.ok (some url))
          = ({ fd with join_url := url }, some teamsSuccessToast))
    ∧ (∀ m, teamsOnResponse fd (.err m)
        = (fd, some ⟨"Error".data,
            jsOr m ("Failed to create Teams meeting".data), true⟩)) := by
  have hv : ¬(fd.subject = [] ∨ fd.start_time = [] ∨ fd.end_time = []) := by
    simp [h1, h2, h3]
  refine ⟨?_, ?_, ?_, ?_⟩
  · simp only [createTeamsMeeting, if_neg hv]
    rfl
  · intro a ha
    simp only [selectedAttendees, List.mem_append] at ha
    rcases ha with ha | ha
    · by_cases hl : fd.lead_id = []
      · simp [hl] at ha
      · rw [if_neg hl] at ha
        rcases hf : leads.find? (fun l => l.id == fd.lead_id) with _ | l
        · simp [hf] at ha
        · rw [hf] at ha
          by_cases he : l.email.getD [] = []
          · simp [he] at ha
          · simp [he] at ha
            rw [ha]
            exact he
    · by_cases hc : fd.contact_id = []
      · simp [hc] at ha
      · rw [if_neg hc] at ha
        rcases hf : contacts.find? (fun c => c.id == fd.contact_id) with _ | c
        · simp [hf] at ha
        · rw [hf] at ha
          by_cases he : c.email.getD [] = []
          · simp [he] at ha
          · simp [he] at ha
            rw [ha]
            exact he
  · intro url hu
    simp [teamsOnResponse, hu]
  · intro m
    rfl

/-- Example form state used by the witnesses below. -/
def fdW : FormData :=
  ⟨"S".data, [], "2025-10-11T10:00".data, "2025-10-11T11:00".data,
    [], "L1".data, "C1".data, "scheduled".data⟩

/-- Example lead list used by the witness below. -/
def leadsW : List Lead := [⟨"L1".data, "Lea".data, some ("l@x".data)⟩]

/-- Example contact list used by the witness below. -/
def contactsW : List MeetingContact := [⟨"C1".data, "Con".data, none⟩]

theorem create_teams_meeting_call_and_response_witness :
    ("S".data : List Char) ≠ [] ∧ ("2025-10-11T10:00".data : List Char) ≠ []
    ∧ ("2025-10-11T11:00".data : List Char) ≠ []
    ∧ (createTeamsMeeting fdW leadsW contactsW
        = .invoke ⟨fdW.subject, selectedAttendees fdW leadsW contactsW,
            fdW.start_time, fdW.end_time⟩
      ∧ (∀ a ∈ selectedAttendees fdW leadsW contactsW, a.email ≠ [])
      ∧ (∀ url : List Char, url ≠ [] →
          teamsOnResponse fdW (.ok (some url))
            = ({ fdW with join_url := url }, some teamsSuccessToast))
      ∧ (∀ m, teamsOnResponse fdW (.err m)
          = (fdW, some ⟨"Error".data,
              jsOr m ("Failed to create Teams meeting".data), true⟩))) :=
  ⟨by decide, by decide, by decide,
    create_teams_meeting_call_and_response fdW leadsW contactsW
      (by decide) (by decide) (by decide)⟩

/-- The branch taken by a submission. -/
def submitBranch : SubmitResult → Nat
  | .invalid => 0
  | .insert _ => 1
  | .update _ _ => 2

/-- Claim C3.  For a valid form, exactly one of the insert and update
paths is taken: the insert path exactly when no meeting record was
supplied, the update path (keyed by the record's id) exactly when one
was; and the branch taken depends only on the `meeting` prop — not on
the form contents or the session user. -/
theorem submit_mode_determined_by_meeting_prop
    (m : Option Meeting) (u u' : Option (List Char)) (fd fd' : FormData)
    (h : ¬(fd.subject = [] ∨ fd.start_time = [] ∨ fd.end_time = []))
    (h' : ¬(fd'.subject = [] ∨ fd'.start_time = [] ∨ fd'.end_time = [])) :
    ((∃ row, handleSubmit m u fd = .insert row) ↔ m = none)
    ∧ ((∃ id row, handleSubmit m u fd = .update id row) ↔ ∃ mt, m = some mt)
    ∧ submitBranch (handleSubmit m u fd) = submitBranch (handleSubmit m u' fd') := by
  simp only [handleSubmit, if_neg h, if_neg h']
  cases m with
  | none => simp [submitBranch]
  | some mt => simp [submitBranch]

/-- Example meeting record used by the witnesses below. -/
def mtW : Meeting :=
  { id := "m1".data, subject := "Old".data,
    description := some ("old desc".data),
    start_time := "2025-10-11T22:37:00.000Z".data,
    end_time := "2025-10-11T23:37:00.000Z".data,
    join_url := none, lead_id := some ("L1".data), contact_id := none,
    status := "scheduled".data }

theorem submit_mode_determined_by_meeting_prop_witness :
    ¬((fdW.subject = [] ∨ fdW.start_time = [] ∨ fdW.end_time = []))
    ∧ (((∃ row, handleSubmit (some mtW) (some ("u1".data)) fdW = .insert row) ↔ (some mtW = none))
      ∧ ((∃ id row, handleSubmit (some mtW) (some ("u1".data)) fdW = .update id row)
          ↔ ∃ mt, some mtW = some mt)
      ∧ submitBranch (handleSubmit (some mtW) (some ("u1".data)) fdW)
          = submitBranch (handleSubmit (some mtW) none fdW)) :=
  ⟨by decide,
    submit_mode_determined_by_meeting_prop (some mtW) (some ("u1".data)) none fdW fdW
      (by decide) (by decide)⟩

/-- Claim C4.  A submission with any of subject, start time or end time
blank stops at the local "Missing fields" notification: zero insert or
update calls are issued. -/
theorem submit_blank_required_fields_no_call
    (m : Option Meeting) (u : Option (List Char)) (fd : FormData)
    (h : fd.subject = [] ∨ fd.start_time = [] ∨ fd.end_time = []) :
    handleSubmit m u fd = .invalid := by
  simp only [handleSubmit, if_pos h]

theorem submit_blank_required_fields_no_call_witness :
    ((("Sub".data : List Char) = [] ∨ ([] : List Char) = []
        ∨ ("2025-10-11T11:00".data : List Char) = []))
    ∧ handleSubmit none none
        ⟨"Sub".data, [], [], "2025-10-11T11:00".data, [], [], [], "scheduled".data⟩
        = .invalid :=
  ⟨by decide,
    submit_blank_required_fields_no_call none none
      ⟨"Sub".data, [], [], "2025-10-11T11:00".data, [], [], [], "scheduled".data⟩
      (by decide)⟩

/-- Claim C5.  On a valid submission, the row handed to the insert or
update call normalizes each optional field — description, join URL,
lead link, contact link — to the explicit absent marker exactly when the
corresponding form value is the empty string, and otherwise carries the
form value; in particular no optional field is ever written as an
explicitly-present empty string. -/
theorem submit_normalizes_optional_fields
    (m : Option Meeting) (u : Option (List Char)) (fd : FormData) (row : MeetingRow)
    (h : handleSubmit m u fd = .insert row ∨ ∃ id, handleSubmit m u fd = .update id row) :
    (row.description = if fd.description = [] then none else some fd.description)
    ∧ (row.join_url = if fd.join_url = [] then none else some fd.join_url)
    ∧ (row.lead_id = if fd.lead_id = [] then none else some fd.lead_id)
    ∧ (row.contact_id = if fd.contact_id = [] then none else some fd.contact_id)
    ∧ row.description ≠ some [] ∧ row.join_url ≠ some []
    ∧ row.lead_id ≠ some [] ∧ row.contact_id ≠ some [] := by
  have hrow : row = meetingRowOf fd u := by
    by_cases hv : fd.subject = [] ∨ fd.start_time = [] ∨ fd.end_time = []
    · rcases h with h | ⟨id, h⟩ <;> simp [handleSubmit, hv] at h
    · rcases h with h | ⟨id, h⟩
      · cases m with
        | none =>
          simp only [handleSubmit, if_neg hv] at h
          injection h with h1
          exact h1.symm
        | some mt =>
          simp only [handleSubmit, if_neg hv] at h
          exact absurd h (by simp)
      · cases m with
        | none =>
          simp only [handleSubmit, if_neg hv] at h
          exact absurd h (by simp)
        | some mt =>
          simp only [handleSubmit, if_neg hv] at h
          injection h with h1 h2
          exact h2.symm
  subst hrow
  refine ⟨rfl, rfl, rfl, rfl, ?_, ?_, ?_, ?_⟩
  · by_cases hx : fd.description = [] <;> simp [meetingRowOf, hx]
  · by_cases hx : fd.join_url = [] <;> simp [meetingRowOf, hx]
  · by_cases hx : fd.lead_id = [] <;> simp [meetingRowOf, hx]
  · by_cases hx : fd.contact_id = [] <;> simp [meetingRowOf, hx]

theorem submit_normalizes_optional_fields_witness :
    (handleSubmit none (some ("u1".data)) fdW
        = .insert (meetingRowOf fdW (some ("u1".data)))
      ∨ ∃ id, handleSubmit none (some ("u1".data)) fdW
        = .update id (meetingRowOf fdW (some ("u1".data))))
    ∧ (((meetingRowOf fdW (some ("u1".data))).description
          = if fdW.description = [] then none else some fdW.description)
      ∧ ((meetingRowOf fdW (some ("u1".data))).join_url
          = if fdW.join_url = [] then none else some fdW.join_url)
      ∧ ((meetingRowOf fdW (some ("u1".data))).lead_id
          = if fdW.lead_id = [] then none else some fdW.lead_id)
      ∧ ((meetingRowOf fdW (some ("u1".data))).contact_id
          = if fdW.contact_id = [] then none else some fdW.contact_id)
      ∧ (meetingRowOf fdW (some ("u1".data))).description ≠ some []
      ∧ (meetingRowOf fdW (some ("u1".data))).join_url ≠ some []
      ∧ (meetingRowOf fdW (some ("u1".data))).lead_id ≠ some []
      ∧ (meetingRowOf fdW (some ("u1".data))).contact_id ≠ some []) :=
  ⟨Or.inl (by decide),
    submit_normalizes_optional_fields none (some ("u1".data)) fdW
      (meetingRowOf fdW (some ("u1".data))) (Or.inl (by decide))⟩

/-- Claim C6.  Opened with an existing record, every seeded field equals
the record's value (optional fields with the absent marker collapsed to
the empty form string, the two timestamps truncated to their first 16
characters, i.e. minute precision `YYYY-MM-DDTHH:MM`).  Opened with no
record, the seeded start time renders the top of the next local hour —
the unique instant strictly after `now`, at most one hour after it, and
falling on a whole local hour — and the seeded end time renders that
instant plus 60 minutes. -/
theorem init_form_seed_and_defaults
    (mt : Meeting) (hstat : mt.status ≠ []) (nowUtc tzOffset : Int) :
    initMeetingForm (some mt) nowUtc tzOffset
      = { subject := mt.subject
          description := mt.description.getD []
          start_time := mt.start_time.take 16
          end_time := mt.end_time.take 16
          join_url := mt.join_url.getD []
          lead_id := mt.lead_id.getD []
          contact_id := mt.contact_id.getD []
          status := mt.status }
    ∧ initMeetingForm none nowUtc tzOffset
      = { subject := [], description := []
          start_time := isoSlice16 (jsNextHourStart nowUtc tzOffset)
          end_time := isoSlice16 (jsNextHourStart nowUtc tzOffset + 60 * 60 * 1000)
          join_url := [], lead_id := [], contact_id := [],
          status := "scheduled".data }
    ∧ (jsNextHourStart nowUtc tzOffset + tzOffset * 60000) % 3600000 = 0
    ∧ nowUtc < jsNextHourStart nowUtc tzOffset
    ∧ jsNextHourStart nowUtc tzOffset ≤ nowUtc + 3600000 := by
  refine ⟨?_, rfl, ?_, ?_, ?_⟩
  · simp only [initMeetingForm, jsOr]
    by_cases h1 : mt.subject = [] <;> by_cases h2 : mt.start_time = [] <;>
      by_cases h3 : mt.end_time = [] <;>
      simp [h1, h2, h3, hstat, FormData.mk.injEq]
  · simp only [jsNextHourStart]
    omega
  · simp only [jsNextHourStart]
    omega
  · simp only [jsNextHourStart]
    omega

theorem init_form_seed_and_defaults_witness :
    mtW.status ≠ []
    ∧ (initMeetingForm (some mtW) 1760222220000 330
        = { subject := mtW.subject
            description := mtW.description.getD []
            start_time := mtW.start_time.take 16
            end_time := mtW.end_time.take 16
            join_url := mtW.join_url.getD []
            lead_id := mtW.lead_id.getD []
            contact_id := mtW.contact_id.getD []
            status := mtW.status }
      ∧ initMeetingForm none 1760222220000 330
        = { subject := [], description := []
            start_time := isoSlice16 (jsNextHourStart 1760222220000 330)
            end_time := isoSlice16 (jsNextHourStart 1760222220000 330 + 60 * 60 * 1000)
            join_url := [], lead_id := [], contact_id := [],
            status := "scheduled".data }
      ∧ (jsNextHourStart 1760222220000 330 + 330 * 60000) % 3600000 = 0
      ∧ (1760222220000 : Int) < jsNextHourStart 1760222220000 330
      ∧ jsNextHourStart 1760222220000 330 ≤ 1760222220000 + 3600000) :=
  ⟨by decide, init_form_seed_and_defaults mtW (by decide) 1760222220000 330⟩

/-- Claim C8, counterexample.  A failed template fetch is caught and
logged only: at a concrete error the component state is unchanged and
the toast component is `none`, whereas the claim requires a user-visible
error notification for every remote call failure. -/
theorem fetch_failure_silent_cex :
    fetchTemplates [] (Except.error ("network down".data)) = ([], none)
    ∧ fetchLeadsAndContacts [] [] (Except.error ("network down".data)) = ([], [], none) :=
  ⟨rfl, rfl⟩

/-- Claim C8 (amended).  A failed meeting insert/update and a failed
remote-function invocation are caught at the call site and surfaced via
a destructive toast whose description is the thrown error's message when
that is non-empty and a generic fallback otherwise, with the form state
preserved and the dialog left open; a failed template fetch and a failed
leads/contacts fetch are caught and logged only — state is likewise
preserved but no notification is issued. -/
theorem remote_failure_handling :
    (∀ (cur : List EmailTemplate) (m : List Char),
      fetchTemplates cur (Except.error m) = (cur, none))
    ∧ (∀ (ls : List Lead) (cs : List MeetingContact) (m : List Char),
        fetchLeadsAndContacts ls cs (Except.error m) = (ls, cs, none))
    ∧ (∀ (fd : FormData) (msg : Option (List Char)),
        submitOnError fd msg
          = (fd, ⟨"Error".data, jsOr msg ("Failed to save meeting".data), true⟩, true))
    ∧ (∀ (fd : FormData) (m : Option (List Char)),
        teamsOnResponse fd (.err m)
          = (fd, some ⟨"Error".data,
              jsOr m ("Failed to create Teams meeting".data), true⟩))
    ∧ (∀ (s d : List Char), s ≠ [] → jsOr (some s) d = s)
    ∧ (∀ d : List Char, jsOr none d = d) := by
  refine ⟨fun _ _ => rfl, fun _ _ _ => rfl, fun _ _ => rfl, fun _ _ => rfl, ?_, fun _ => rfl⟩
  intro s d hs
  simp [jsOr, hs]

theorem remote_failure_handling_witness :
    fetchTemplates [] (Except.error ("x".data)) = ([], none)
    ∧ fetchLeadsAndContacts [] [] (Except.error ("x".data)) = ([], [], none)
    ∧ submitOnError fdW (some ("boom".data))
        = (fdW, ⟨"Error".data, jsOr (some ("boom".data)) ("Failed to save meeting".data),
            true⟩, true)
    ∧ teamsOnResponse fdW (.err none)
        = (fdW, some ⟨"Error".data,
            jsOr none ("Failed to create Teams meeting".data), true⟩)
    ∧ ("boom".data ≠ [] ∧ jsOr (some ("boom".data)) ("d".data) = "boom".data)
    ∧ jsOr none ("d".data) = "d".data :=
  ⟨remote_failure_handling.1 [] ("x".data),
    remote_failure_handling.2.1 [] [] ("x".data),
    remote_failure_handling.2.2.1 fdW (some ("boom".data)),
    remote_failure_handling.2.2.2.1 fdW none,
    ⟨by decide, remote_failure_handling.2.2.2.2.1 ("boom".data) ("d".data) (by decide)⟩,
    remote_failure_handling.2.2.2.2.2 ("d".data)⟩
